import Mathlib

set_option maxRecDepth 40000

/-!
Shallow embedding of the speaker discovery / caching / coordinator-resolution
component of `src/api-python/src/sndctl/services/soco_service.py`
(class `SoCoService`), together with the per-speaker control operations.

Modelling conventions:
  * A SoCo device handle is identified by a `Nat` id.  Network reads that the
    wrapped library performs on a handle (volume, transport state, favorites,
    zones, ...) are supplied as explicit oracle functions `Nat → ...`.
  * A Python `dict[str, SoCo]` is an insertion-ordered association list
    `List (String × Device)`; `dictInsert` reproduces dict-assignment
    (replace in place on an existing key, append otherwise) and
    `cacheKeys` reproduces `list(d.keys())`.
  * Each service operation is embedded as a pure function returning both its
    Python return value and the handle(s) on which it performed its device
    calls (`none` / `[]` when no device was contacted).  The exception path of
    an operation whose device call fails after the target was resolved is not
    modelled; the claims under study concern target resolution and the
    absent-name branch, both of which happen before any device call.
  * `device.group` is modelled as `Option GroupInfo`; `none` stands for both a
    falsy group and a group read that raises (the source treats the two the
    same way wherever it reads `.group`).
  * Timestamps are integer seconds; `datetime.now(timezone.utc)` becomes an
    explicit `now : Int` argument.
-/

/-- A member entry of a Sonos group (`group.members` element), as read by the
source: its `player_name` and `is_visible` flag. -/
structure Member where
  player_name : String
  is_visible : Bool
deriving DecidableEq

/-- `device.group`: the group's coordinator handle and its member list. -/
structure GroupInfo where
  coordinator : Nat
  members : List Member
deriving DecidableEq

/-- A SoCo device handle together with the attributes the service reads from
it: `player_name`, `is_visible`, `is_coordinator` and `group`. -/
structure Device where
  id : Nat
  player_name : String
  is_visible : Bool
  is_coordinator : Bool
  group : Option GroupInfo
deriving DecidableEq

/-- The speaker cache `self._speakers_cache : dict[str, SoCo]`, as an
insertion-ordered association list. -/
def SpeakerCache := List (String × Device)
deriving DecidableEq

/-- The mutable state of `SoCoService` relevant to discovery:
`_speakers_cache` and `_last_discovery`. -/
structure SpeakerState where
  speakers_cache : List (String × Device)
  last_discovery : Option Int
deriving DecidableEq

/-- Python dict assignment `m[k] = v`: replace in place when `k` is already a
key, append `(k, v)` otherwise. -/
def dictInsert (m : List (String × Device)) (k : String) (v : Device) :
    List (String × Device) :=
  if m.any (fun p => p.1 == k) then
    m.map (fun p => if p.1 == k then (p.1, v) else p)
  else m ++ [(k, v)]

/-- `list(d.keys())` on the cache dict. -/
def cacheKeys (m : List (String × Device)) : List String :=
  m.map Prod.fst

/-- `self._speakers_cache.get(name)` (`SoCoService._get_speaker`). -/
def getSpeaker (cache : List (String × Device)) (name : String) :
    Option Device :=
  (cache.find? (fun p => p.1 == name)).map Prod.snd

/-- `SoCoService._get_playback_device`: the transport target.  Returns the
group coordinator when the device has a (readable, truthy) group and is not
itself the coordinator; otherwise — coordinator flag set, falsy group, or a
group read that raises — the device itself. -/
def getPlaybackDevice (d : Device) : Nat :=
  match d.group with
  | some g => if !d.is_coordinator then g.coordinator else d.id
  | none => d.id

/-- `SoCoService._get_any_coordinator`: first cached device whose
`is_coordinator` flag is set, else the first cached device, else `none`. -/
def getAnyCoordinator (cache : List (String × Device)) : Option Device :=
  match cache.find? (fun p => p.2.is_coordinator) with
  | some p => some p.2
  | none => (cache.head?).map Prod.snd

/-! ## IP-scan fallback discovery -/

/-- The marker token identifying a Sonos status page
(`"ZPSupportInfo" in result.stdout`). -/
def zpMarker : String := "ZPSupportInfo"

/-- Opening tag of the zone-name field matched by the source's regular
expression. -/
def zoneOpenTag : String := "<ZoneName>"

/-- Closing tag of the zone-name field. -/
def zoneCloseTag : String := "</ZoneName>"

/-- The hard-coded default subnet of `_discover_by_ip_scan`. -/
def ipScanSubnet : String := "192.168.1"

/-- `max_workers` of the scan's thread pool. -/
def scanMaxWorkers : Nat := 50

/-- Substring test on character lists (Python `pat in s`). -/
def containsSub : List Char → List Char → Bool
  | [], pat => pat.isPrefixOf ([] : List Char)
  | c :: t, pat => pat.isPrefixOf (c :: t) || containsSub t pat

/-- One attempted match of the pattern `<ZoneName>([^<]+)</ZoneName>` at the
head of `cs`: the run after the opening tag must be nonempty, free of the
character X3C, and immediately followed by the closing tag. -/
def zoneMatchAt (cs : List Char) : Option (List Char) :=
  if zoneOpenTag.data.isPrefixOf cs then
    let rest := cs.drop zoneOpenTag.data.length
    let run := rest.takeWhile (fun c => c != '<')
    if !run.isEmpty && zoneCloseTag.data.isPrefixOf (rest.drop run.length) then
      some run
    else none
  else none

/-- `re.search` for the zone-name pattern: first position where the whole
pattern matches. -/
def zoneSearch : List Char → Option (List Char)
  | [] => none
  | c :: t =>
    match zoneMatchAt (c :: t) with
    | some run => some run
    | none => zoneSearch t

/-- The raw network surface consumed by the scan: `body ip` is the stdout of
the status probe against `ip` (with `none` for a probe that times out or
raises), and `control ip` is the device obtained by opening a SoCo control
connection to `ip` and reading its attributes (with `none` when the
connection or any attribute read raises). -/
structure ProbeNet where
  body : String → Option String
  control : String → Option Device

/-- `SoCoService._scan_ip_for_sonos`: probe the status endpoint of one
address; succeed with `(ip, zone name)` when the body carries the marker
token and a zone-name field, fail silently otherwise. -/
def scanIpForSonos (net : ProbeNet) (ip : String) : Option (String × String) :=
  match net.body ip with
  | none => none
  | some out =>
    if containsSub out.data zpMarker.data then
      match zoneSearch out.data with
      | some run => some (ip, String.mk run)
      | none => none
    else none

/-- The 254 host addresses probed by the scan
(`[f"{subnet}.{i}" for i in range(1, 255)]`). -/
def ipsToScan (subnet : String) : List String :=
  (List.range 254).map (fun i => subnet ++ "." ++ toString (i + 1))

/-- One iteration of the scan's result loop: on a successful status probe the
XML name is discarded, a control connection to the address is opened, and the
device is kept only when the connection succeeds, the device is visible, and
its canonical `player_name` is truthy; every failure drops the address
silently. -/
def scanStep (net : ProbeNet) (speakers : List (String × Device))
    (ip : String) : List (String × Device) :=
  match scanIpForSonos net ip with
  | none => speakers
  | some (ip2, _) =>
    match net.control ip2 with
    | none => speakers
    | some device =>
      if !device.is_visible then speakers
      else if device.player_name != "" then
        dictInsert speakers device.player_name device
      else speakers

/-- `SoCoService._discover_by_ip_scan` (probe completions taken in submission
order, one sequentialization of the pool's completion order). -/
def discoverByIpScan (net : ProbeNet) (subnet : String := ipScanSubnet) :
    List (String × Device) :=
  (ipsToScan subnet).foldl (scanStep net) []

/-! ## Discovery with cache -/

/-- One speaker of the multicast result, as consumed by the dict
comprehension of `discover_speakers`: kept only when its `player_name` is
truthy and its `is_visible` flag is set, keyed by name. -/
def multicastStep (m : List (String × Device)) (s : Device) :
    List (String × Device) :=
  if s.player_name != "" && s.is_visible then dictInsert m s.player_name s
  else m

/-- The multicast filter of `discover_speakers`: the dict comprehension over
the returned speakers. -/
def buildCache (speakers : List Device) : List (String × Device) :=
  speakers.foldl multicastStep []

/-- The cache-freshness test of `discover_speakers`: not forcing, cache dict
truthy, `_last_discovery` set, and age below 300 seconds. -/
def cacheFresh (st : SpeakerState) (force : Bool) (now : Int) : Bool :=
  !force && !st.speakers_cache.isEmpty &&
    (match st.last_discovery with
     | some t => decide ((now - t : Int) < 300)
     | none => false)

/-- `SoCoService.discover_speakers`.  `multicast` is the outcome of
`soco.discover(timeout=5)` (`Except.error` for a raised exception, `ok` with
the returned speakers, the falsy `None`/empty cases both as `ok []`); the
scan fallback consumes `net`.  Returns the new state, the returned name
list, and whether a network discovery was attempted. -/
def discover_speakers (st : SpeakerState) (force : Bool) (now : Int)
    (multicast : Except Unit (List Device)) (net : ProbeNet) :
    SpeakerState × List String × Bool :=
  if cacheFresh st force now then
    (st, cacheKeys st.speakers_cache, false)
  else
    match multicast with
    | Except.error _ => (st, cacheKeys st.speakers_cache, true)
    | Except.ok speakers =>
      if !speakers.isEmpty then
        let cache := buildCache speakers
        (⟨cache, some now⟩, cacheKeys cache, true)
      else
        let scanned := discoverByIpScan net ipScanSubnet
        if !scanned.isEmpty then
          (⟨scanned, some now⟩, cacheKeys scanned, true)
        else
          (st, [], true)

/-! ## Group listing -/

/-- One entry of the group list: coordinator name and member names. -/
structure GroupEntry where
  coordinator : String
  members : List String
deriving DecidableEq

/-- The member-name list built for a coordinator zone: visible members of the
zone's group other than the coordinator itself (empty for a falsy group). -/
def zoneMembers (zone : Device) : List String :=
  match zone.group with
  | some g =>
    (g.members.filter
      (fun m => m.player_name != zone.player_name && m.is_visible)).map
      (fun m => m.player_name)
  | none => []

/-- One iteration of `_get_groups_sync`'s zone loop, carrying the group list
built so far and the `seen_coordinators` set. -/
def groupStep (acc : List GroupEntry × List String) (zone : Device) :
    List GroupEntry × List String :=
  if zone.is_coordinator && zone.is_visible then
    if acc.2.contains zone.player_name then acc
    else
      (acc.1 ++ [{ coordinator := zone.player_name,
                   members := zoneMembers zone }],
       zone.player_name :: acc.2)
  else acc

/-- `SoCoService._get_groups_sync`, over the zone list read from
`device.all_zones`. -/
def getGroupsSync (zones : List Device) : List GroupEntry :=
  (zones.foldl groupStep ([], [])).1

/-! ## Per-speaker operations

Each operation returns its Python result together with the handle it directed
its device calls at (`none` when the operation performed no device call). -/

/-- `SoCoService.play`. -/
def play (cache : List (String × Device)) (name : String) :
    Bool × Option Nat :=
  match getSpeaker cache name with
  | none => (false, none)
  | some d => (true, some (getPlaybackDevice d))

/-- `SoCoService.pause`. -/
def pause (cache : List (String × Device)) (name : String) :
    Bool × Option Nat :=
  match getSpeaker cache name with
  | none => (false, none)
  | some d => (true, some (getPlaybackDevice d))

/-- `SoCoService.stop`. -/
def stop (cache : List (String × Device)) (name : String) :
    Bool × Option Nat :=
  match getSpeaker cache name with
  | none => (false, none)
  | some d => (true, some (getPlaybackDevice d))

/-- `SoCoService.next_track`. -/
def next_track (cache : List (String × Device)) (name : String) :
    Bool × Option Nat :=
  match getSpeaker cache name with
  | none => (false, none)
  | some d => (true, some (getPlaybackDevice d))

/-- `SoCoService.previous_track`. -/
def previous_track (cache : List (String × Device)) (name : String) :
    Bool × Option Nat :=
  match getSpeaker cache name with
  | none => (false, none)
  | some d => (true, some (getPlaybackDevice d))

/-- `SoCoService.seek`. -/
def seek (cache : List (String × Device)) (name : String)
    (_position : String) : Bool × Option Nat :=
  match getSpeaker cache name with
  | none => (false, none)
  | some d => (true, some (getPlaybackDevice d))

/-- `SoCoService.set_volume`: the clamped value actually written to the
device is the middle component (`none` when no write was attempted). -/
def set_volume (cache : List (String × Device)) (name : String)
    (volume : Int) : Bool × Option Int × Option Nat :=
  match getSpeaker cache name with
  | none => (false, none, none)
  | some d => (true, some (max 0 (min 100 volume)), some d.id)

/-- `SoCoService.get_volume` (`vol` reports `device.volume`). -/
def get_volume (vol : Nat → Int) (cache : List (String × Device))
    (name : String) : Option Int × Option Nat :=
  match getSpeaker cache name with
  | none => (none, none)
  | some d => (some (vol d.id), some d.id)

/-- `SoCoService.get_mute` (`mut` reports `device.mute`). -/
def get_mute (muteOf : Nat → Bool) (cache : List (String × Device))
    (name : String) : Option Bool × Option Nat :=
  match getSpeaker cache name with
  | none => (none, none)
  | some d => (some (muteOf d.id), some d.id)

/-- `SoCoService.set_mute`. -/
def set_mute (cache : List (String × Device)) (name : String)
    (_mute : Bool) : Bool × Option Nat :=
  match getSpeaker cache name with
  | none => (false, none)
  | some d => (true, some d.id)

/-- `SoCoService.set_group_volume` (no clamping in the source). -/
def set_group_volume (cache : List (String × Device)) (name : String)
    (_volume : Int) : Bool × Option Nat :=
  match getSpeaker cache name with
  | none => (false, none)
  | some d => (true, some d.id)

/-- `SoCoService.get_playback_state` (`st8` reports the transport state read
from a handle).  The coordinator redirection is inlined in the source, with
the same group test as `_get_playback_device`. -/
def get_playback_state (st8 : Nat → String) (cache : List (String × Device))
    (name : String) : String × Option Nat :=
  match getSpeaker cache name with
  | none => ("UNKNOWN", none)
  | some d =>
    let target :=
      match d.group with
      | some g => if !d.is_coordinator then g.coordinator else d.id
      | none => d.id
    (st8 target, some target)

/-- Title and artist of the current track as read from a handle. -/
structure TrackInfo where
  title : String
  artist : String
deriving DecidableEq

/-- `SoCoService.get_current_track` (`trk` reports the track info read from a
handle; coordinator redirection inlined as in the source). -/
def get_current_track (trk : Nat → TrackInfo)
    (cache : List (String × Device)) (name : String) :
    Option String × Option Nat :=
  match getSpeaker cache name with
  | none => (none, none)
  | some d =>
    let target :=
      match d.group with
      | some g => if !d.is_coordinator then g.coordinator else d.id
      | none => d.id
    let info := trk target
    if info.title != "" && info.artist != "" then
      (some (info.artist ++ " - " ++ info.title), some target)
    else if info.title != "" then (some info.title, some target)
    else (none, some target)

/-- `SoCoService.get_shuffle` (`shuf` reports `playback_device.shuffle`). -/
def get_shuffle (shuf : Nat → Bool) (cache : List (String × Device))
    (name : String) : Option Bool × Option Nat :=
  match getSpeaker cache name with
  | none => (none, none)
  | some d => (some (shuf (getPlaybackDevice d)), some (getPlaybackDevice d))

/-- `SoCoService.set_shuffle`. -/
def set_shuffle (cache : List (String × Device)) (name : String)
    (_enabled : Bool) : Bool × Option Nat :=
  match getSpeaker cache name with
  | none => (false, none)
  | some d => (true, some (getPlaybackDevice d))

/-- The value of the SoCo `repeat` attribute: Python `False`, `True`, or the
string constant for single-track repetition. -/
inductive RepeatRaw where
  | roff : RepeatRaw
  | rall : RepeatRaw
  | rone : RepeatRaw
deriving DecidableEq

/-- `SoCoService.get_repeat` (`rep` reports `playback_device.repeat`). -/
def get_repeat (rep : Nat → RepeatRaw) (cache : List (String × Device))
    (name : String) : Option String × Option Nat :=
  match getSpeaker cache name with
  | none => (none, none)
  | some d =>
    let target := getPlaybackDevice d
    match rep target with
    | RepeatRaw.roff => (some "off", some target)
    | RepeatRaw.rall => (some "all", some target)
    | RepeatRaw.rone => (some "one", some target)

/-- `SoCoService.set_repeat`. -/
def set_repeat (cache : List (String × Device)) (name : String)
    (_mode : String) : Bool × Option Nat :=
  match getSpeaker cache name with
  | none => (false, none)
  | some d => (true, some (getPlaybackDevice d))

/-- `SoCoService.get_crossfade` (`cf` reports `playback_device.cross_fade`). -/
def get_crossfade (cf : Nat → Bool) (cache : List (String × Device))
    (name : String) : Option Bool × Option Nat :=
  match getSpeaker cache name with
  | none => (none, none)
  | some d => (some (cf (getPlaybackDevice d)), some (getPlaybackDevice d))

/-- `SoCoService.set_crossfade`. -/
def set_crossfade (cache : List (String × Device)) (name : String)
    (_enabled : Bool) : Bool × Option Nat :=
  match getSpeaker cache name with
  | none => (false, none)
  | some d => (true, some (getPlaybackDevice d))

/-- `SoCoService.get_sleep_timer` (`slp` reports
`playback_device.get_sleep_timer()`; a falsy timer collapses to 0 via the
source's final disjunction). -/
def get_sleep_timer (slp : Nat → Option Int)
    (cache : List (String × Device)) (name : String) :
    Option Int × Option Nat :=
  match getSpeaker cache name with
  | none => (none, none)
  | some d =>
    let target := getPlaybackDevice d
    (some ((slp target).getD 0), some target)

/-- `SoCoService.set_sleep_timer`. -/
def set_sleep_timer (cache : List (String × Device)) (name : String)
    (_seconds : Option Int) : Bool × Option Nat :=
  match getSpeaker cache name with
  | none => (false, none)
  | some d => (true, some (getPlaybackDevice d))

/-! ## Queue operations -/

/-- `SoCoService.get_queue` (`q` reports the titles of
`playback_device.get_queue()`; each item is numbered from 1 as in
`_get_queue_sync`). -/
def get_queue (q : Nat → List String) (cache : List (String × Device))
    (name : String) : List (Nat × String) × Option Nat :=
  match getSpeaker cache name with
  | none => ([], none)
  | some d =>
    let target := getPlaybackDevice d
    ((q target).enum.map (fun p => (p.1 + 1, p.2)), some target)

/-- `SoCoService.get_queue_length` (`qsize` reports
`playback_device.queue_size`). -/
def get_queue_length (qsize : Nat → Nat) (cache : List (String × Device))
    (name : String) : Nat × Option Nat :=
  match getSpeaker cache name with
  | none => (0, none)
  | some d => (qsize (getPlaybackDevice d), some (getPlaybackDevice d))

/-- `SoCoService.get_queue_position` (`qpos` reports the parsed
`playlist_position` field). -/
def get_queue_position (qpos : Nat → Nat) (cache : List (String × Device))
    (name : String) : Nat × Option Nat :=
  match getSpeaker cache name with
  | none => (0, none)
  | some d => (qpos (getPlaybackDevice d), some (getPlaybackDevice d))

/-- `SoCoService.play_from_queue`. -/
def play_from_queue (cache : List (String × Device)) (name : String)
    (_position : Int) : Bool × Option Nat :=
  match getSpeaker cache name with
  | none => (false, none)
  | some d => (true, some (getPlaybackDevice d))

/-- `SoCoService.clear_queue`. -/
def clear_queue (cache : List (String × Device)) (name : String) :
    Bool × Option Nat :=
  match getSpeaker cache name with
  | none => (false, none)
  | some d => (true, some (getPlaybackDevice d))

/-- `SoCoService.remove_from_queue`. -/
def remove_from_queue (cache : List (String × Device)) (name : String)
    (_position : Int) : Bool × Option Nat :=
  match getSpeaker cache name with
  | none => (false, none)
  | some d => (true, some (getPlaybackDevice d))

/-- `SoCoService.add_uri_to_queue`. -/
def add_uri_to_queue (cache : List (String × Device)) (name : String)
    (_uri : String) : Bool × Option Nat :=
  match getSpeaker cache name with
  | none => (false, none)
  | some d => (true, some (getPlaybackDevice d))

/-! ## Favorites, playlists, radio -/

/-- A Sonos favorite as read from a handle's music library: its title,
whether it carries resources (track/album type), and the queue position
`add_to_queue` reports for it. -/
structure FavEntry where
  title : String
  has_resources : Bool
  queue_pos : Nat
deriving DecidableEq

/-- A Sonos playlist as read from a handle: its title, the queue position
`add_to_queue` reports for it, and the titles of its tracks. -/
structure PlaylistEntry where
  title : String
  queue_pos : Nat
  tracks : List String
deriving DecidableEq

/-- `SoCoService.add_favorite_to_queue` (`favs` reports the favorites of a
handle's music library; match on lowercased title, first hit wins). -/
def add_favorite_to_queue (favs : Nat → List FavEntry)
    (cache : List (String × Device)) (name favorite_name : String) :
    Option Nat × Option Nat :=
  match getSpeaker cache name with
  | none => (none, none)
  | some d =>
    let target := getPlaybackDevice d
    match (favs target).find?
        (fun f => f.title.toLower == favorite_name.toLower) with
    | some f => (some f.queue_pos, some target)
    | none => (none, some target)

/-- `SoCoService.add_playlist_to_queue`. -/
def add_playlist_to_queue (pls : Nat → List PlaylistEntry)
    (cache : List (String × Device)) (name playlist_name : String) :
    Option Nat × Option Nat :=
  match getSpeaker cache name with
  | none => (none, none)
  | some d =>
    let target := getPlaybackDevice d
    match (pls target).find?
        (fun p => p.title.toLower == playlist_name.toLower) with
    | some p => (some p.queue_pos, some target)
    | none => (none, some target)

/-- `SoCoService.play_favorite` (via `_play_favorite_sync`: resolve the
playback device, search by lowercased title, succeed only on a favorite with
resources). -/
def play_favorite (favs : Nat → List FavEntry)
    (cache : List (String × Device)) (name favorite_name : String) :
    Bool × Option Nat :=
  match getSpeaker cache name with
  | none => (false, none)
  | some d =>
    let target := getPlaybackDevice d
    match (favs target).find?
        (fun f => f.title.toLower == favorite_name.toLower) with
    | some f => (f.has_resources, some target)
    | none => (false, some target)

/-- `SoCoService.play_favorite_by_number` (1-based; an out-of-range number
raises and is reported as failure). -/
def play_favorite_by_number (favs : Nat → List FavEntry)
    (cache : List (String × Device)) (name : String) (number : Int) :
    Bool × Option Nat :=
  match getSpeaker cache name with
  | none => (false, none)
  | some d =>
    let target := getPlaybackDevice d
    if number < 1 || number > (favs target).length then (false, some target)
    else (true, some target)

/-- `SoCoService.play_radio_station` (stations live in favorites; only an
entry with resources plays). -/
def play_radio_station (favs : Nat → List FavEntry)
    (cache : List (String × Device)) (name station_name : String) :
    Bool × Option Nat :=
  match getSpeaker cache name with
  | none => (false, none)
  | some d =>
    let target := getPlaybackDevice d
    match (favs target).find?
        (fun f => f.title.toLower == station_name.toLower) with
    | some f => (f.has_resources, some target)
    | none => (false, some target)

/-- `SoCoService.get_favorites`: an absent name falls back to
`_get_any_coordinator`; the chosen device is then replaced by its group's
coordinator when the group read succeeds.  Results are numbered from 0 as in
the source. -/
def get_favorites (favs : Nat → List FavEntry)
    (cache : List (String × Device)) (name : String) :
    List (Nat × String) × Option Nat :=
  let device? :=
    match getSpeaker cache name with
    | some d => some d
    | none => getAnyCoordinator cache
  match device? with
  | none => ([], none)
  | some d =>
    let target :=
      match d.group with
      | some g => g.coordinator
      | none => d.id
    ((favs target).enum.map (fun p => (p.1, (p.2).title)), some target)

/-- `SoCoService.get_playlists`: an absent or omitted name falls back to
`_get_any_coordinator`; the chosen device is contacted directly. -/
def get_playlists (pls : Nat → List PlaylistEntry)
    (cache : List (String × Device)) (speaker_name : Option String) :
    List (Nat × String) × Option Nat :=
  let looked :=
    match speaker_name with
    | some n => getSpeaker cache n
    | none => none
  let device? :=
    match looked with
    | some d => some d
    | none => getAnyCoordinator cache
  match device? with
  | none => ([], none)
  | some d =>
    ((pls d.id).enum.map (fun p => (p.1 + 1, (p.2).title)), some d.id)

/-- `SoCoService.get_radio_stations` (`stations` reports
`device.get_favorite_radio_stations()`); same fallback as `get_playlists`. -/
def get_radio_stations (stations : Nat → List String)
    (cache : List (String × Device)) (speaker_name : Option String) :
    List (Nat × String) × Option Nat :=
  let looked :=
    match speaker_name with
    | some n => getSpeaker cache n
    | none => none
  let device? :=
    match looked with
    | some d => some d
    | none => getAnyCoordinator cache
  match device? with
  | none => ([], none)
  | some d =>
    ((stations d.id).enum.map (fun p => (p.1 + 1, p.2)), some d.id)

/-- `SoCoService.get_playlist_tracks`; same fallback as `get_playlists`,
then a lowercased-title search and a browse of the matching playlist. -/
def get_playlist_tracks (pls : Nat → List PlaylistEntry)
    (cache : List (String × Device)) (playlist_name : String)
    (speaker_name : Option String) : List (Nat × String) × Option Nat :=
  let looked :=
    match speaker_name with
    | some n => getSpeaker cache n
    | none => none
  let device? :=
    match looked with
    | some d => some d
    | none => getAnyCoordinator cache
  match device? with
  | none => ([], none)
  | some d =>
    match (pls d.id).find?
        (fun p => p.title.toLower == playlist_name.toLower) with
    | some p =>
      ((p.tracks.enum.map (fun q => (q.1 + 1, q.2))), some d.id)
    | none => ([], some d.id)

/-! ## Grouping operations -/

/-- `SoCoService.group_speakers` (`member_device.join(coord_device)`; the
device call targets the member). -/
def group_speakers (cache : List (String × Device))
    (coordinator member : String) : Bool × Option Nat :=
  match getSpeaker cache coordinator, getSpeaker cache member with
  | some _, some m => (true, some m.id)
  | _, _ => (false, none)

/-- `SoCoService.ungroup_speaker` (`device.unjoin()`). -/
def ungroup_speaker (cache : List (String × Device)) (name : String) :
    Bool × Option Nat :=
  match getSpeaker cache name with
  | none => (false, none)
  | some d => (true, some d.id)

/-- `SoCoService.party_mode` (`device.partymode()`). -/
def party_mode (cache : List (String × Device)) (name : String) :
    Bool × Option Nat :=
  match getSpeaker cache name with
  | none => (false, none)
  | some d => (true, some d.id)

/-- `SoCoService.ungroup_all` (`zones` reports `device.all_zones`; the
second component lists the handles on which `unjoin` is invoked). -/
def ungroup_all (zones : Nat → List Device)
    (cache : List (String × Device)) (name : String) : Bool × List Nat :=
  match getSpeaker cache name with
  | none => (false, [])
  | some d =>
    (true,
     ((zones d.id).filter
       (fun z => z.is_visible && !z.is_coordinator)).map (fun z => z.id))

/-- `SoCoService.play_uri` (contacts the named device directly). -/
def play_uri (cache : List (String × Device)) (name : String)
    (_uri : String) : Bool × Option Nat :=
  match getSpeaker cache name with
  | none => (false, none)
  | some d => (true, some d.id)

/-- The spec's `resolveCoordinator`: the name lookup performed by every
per-speaker operation (`_get_speaker`) composed with the transport-target
resolution (`_get_playback_device`); an absent name yields `none`
(the spec's NotFound). -/
def resolveCoordinator (cache : List (String × Device)) (name : String) :
    Option Nat :=
  (getSpeaker cache name).map getPlaybackDevice

/-! ## Concrete fixtures used by witnesses and counterexamples -/

/-- A name absent from every fixture cache. -/
def ghostName : String := "Ghost"

/-- Fixture name. -/
def kitchenName : String := "Kitchen"

/-- Fixture name. -/
def denName : String := "Den"

/-- Fixture group: coordinator handle 2, two visible members. -/
def wGroup : GroupInfo :=
  { coordinator := 2,
    members := [⟨kitchenName, true⟩, ⟨denName, true⟩] }

/-- Fixture coordinator device. -/
def devKitchen : Device :=
  { id := 2, player_name := kitchenName, is_visible := true,
    is_coordinator := true, group := some wGroup }

/-- Fixture member device (not the coordinator of its group). -/
def devDen : Device :=
  { id := 1, player_name := denName, is_visible := true,
    is_coordinator := false, group := some wGroup }

/-- Fixture non-visible device (a bonded satellite). -/
def devHidden : Device :=
  { id := 9, player_name := "Attic", is_visible := false,
    is_coordinator := false, group := some wGroup }

/-- Fixture device reachable through the IP scan. -/
def devScan : Device :=
  { id := 7, player_name := denName, is_visible := true,
    is_coordinator := true, group := none }

/-- Fixture cache holding a member and its coordinator. -/
def wCache : List (String × Device) :=
  [(denName, devDen), (kitchenName, devKitchen)]

/-- Fixture registry state with a non-empty prior snapshot captured at 0. -/
def st0 : SpeakerState :=
  { speakers_cache := [(kitchenName, devKitchen)], last_discovery := some 0 }

/-- Fixture network on which every probe fails. -/
def net0 : ProbeNet := { body := fun _ => none, control := fun _ => none }

/-- Fixture address answered by `net5`. -/
def ip7 : String := "192.168.1.7"

/-- Fixture status body carrying the marker and a zone name. -/
def zpBody : String :=
  "<ZPSupportInfo><ZoneName>Den</ZoneName></ZPSupportInfo>"

/-- Fixture network on which exactly one address confirms. -/
def net5 : ProbeNet :=
  { body := fun ip => if ip == ip7 then some zpBody else none,
    control := fun ip => if ip == ip7 then some devScan else none }

/-- Fixture zone list enumerating the same coordinator through two zones. -/
def zonesW : List Device := [devKitchen, devDen, devKitchen]

/-- Fixture favorites oracle. -/
def favsW : Nat → List FavEntry := fun _ => [⟨"Jazz", true, 3⟩]

/-- Fixture playlists oracle. -/
def plsW : Nat → List PlaylistEntry := fun _ => [⟨"Morning", 1, ["Song"]⟩]

/-! ## Helper lemmas -/

/-- An entry of `dictInsert m k v` is an entry of `m` or the pair `(k, v)`. -/
theorem mem_dictInsert {m : List (String × Device)} {k : String} {v : Device}
    {p : String × Device} (hp : p ∈ dictInsert m k v) :
    p ∈ m ∨ p = (k, v) := by
  unfold dictInsert at hp
  split at hp
  · rcases List.mem_map.1 hp with ⟨q, hq, hqe⟩
    by_cases hk : (q.1 == k) = true
    · right
      rw [if_pos hk] at hqe
      have hqk : q.1 = k := by simpa using hk
      rw [← hqe, hqk]
    · left
      rw [if_neg hk] at hqe
      rwa [← hqe]
  · rcases List.mem_append.1 hp with h1 | h2
    · exact Or.inl h1
    · right
      simpa using h2

/-- C1 — Coordinator resolution: `_get_playback_device` returns the device
itself when its coordinator flag is set or its group cannot be read, and the
group's coordinator otherwise; and every playback-transport operation (play,
pause, stop, next, previous, seek, the queue mutations, shuffle / repeat /
crossfade, sleep timer) directs its transport call at this resolved handle,
never at the member device directly. -/
theorem C1_transport_routes_through_coordinator :
    (∀ d : Device, d.is_coordinator = true → getPlaybackDevice d = d.id)
    ∧ (∀ d : Device, d.group = none → getPlaybackDevice d = d.id)
    ∧ (∀ (d : Device) (g : GroupInfo), d.group = some g →
        d.is_coordinator = false → getPlaybackDevice d = g.coordinator)
    ∧ (∀ (cache : List (String × Device)) (name : String) (d : Device),
        getSpeaker cache name = some d →
        (play cache name).2 = some (getPlaybackDevice d)
        ∧ (pause cache name).2 = some (getPlaybackDevice d)
        ∧ (stop cache name).2 = some (getPlaybackDevice d)
        ∧ (next_track cache name).2 = some (getPlaybackDevice d)
        ∧ (previous_track cache name).2 = some (getPlaybackDevice d)
        ∧ (∀ pos : String,
            (seek cache name pos).2 = some (getPlaybackDevice d))
        ∧ (∀ pos : Int,
            (play_from_queue cache name pos).2 = some (getPlaybackDevice d))
        ∧ (clear_queue cache name).2 = some (getPlaybackDevice d)
        ∧ (∀ pos : Int,
            (remove_from_queue cache name pos).2 = some (getPlaybackDevice d))
        ∧ (∀ uri : String,
            (add_uri_to_queue cache name uri).2 = some (getPlaybackDevice d))
        ∧ (∀ (favs : Nat → List FavEntry) (fn : String),
            (add_favorite_to_queue favs cache name fn).2 =
              some (getPlaybackDevice d))
        ∧ (∀ (pls : Nat → List PlaylistEntry) (pn : String),
            (add_playlist_to_queue pls cache name pn).2 =
              some (getPlaybackDevice d))
        ∧ (∀ shuf : Nat → Bool,
            (get_shuffle shuf cache name).2 = some (getPlaybackDevice d))
        ∧ (∀ b : Bool,
            (set_shuffle cache name b).2 = some (getPlaybackDevice d))
        ∧ (∀ rep : Nat → RepeatRaw,
            (get_repeat rep cache name).2 = some (getPlaybackDevice d))
        ∧ (∀ m : String,
            (set_repeat cache name m).2 = some (getPlaybackDevice d))
        ∧ (∀ cf : Nat → Bool,
            (get_crossfade cf cache name).2 = some (getPlaybackDevice d))
        ∧ (∀ b : Bool,
            (set_crossfade cache name b).2 = some (getPlaybackDevice d))
        ∧ (∀ slp : Nat → Option Int,
            (get_sleep_timer slp cache name).2 = some (getPlaybackDevice d))
        ∧ (∀ s : Option Int,
            (set_sleep_timer cache name s).2 = some (getPlaybackDevice d))) := by
  refine ⟨?_, ?_, ?_, ?_⟩
  · intro d h
    unfold getPlaybackDevice
    cases d.group <;> simp [h]
  · intro d h
    simp [getPlaybackDevice, h]
  · intro d g hg h
    simp [getPlaybackDevice, hg, h]
  · intro cache name d h
    refine ⟨?_, ?_, ?_, ?_, ?_, ?_, ?_, ?_, ?_, ?_, ?_, ?_, ?_, ?_, ?_, ?_,
      ?_, ?_, ?_, ?_⟩
    · simp [play, h]
    · simp [pause, h]
    · simp [stop, h]
    · simp [next_track, h]
    · simp [previous_track, h]
    · intro pos; simp [seek, h]
    · intro pos; simp [play_from_queue, h]
    · simp [clear_queue, h]
    · intro pos; simp [remove_from_queue, h]
    · intro uri; simp [add_uri_to_queue, h]
    · intro favs fn
      simp only [add_favorite_to_queue, h]
      cases hf : (favs (getPlaybackDevice d)).find?
          (fun f => f.title.toLower == fn.toLower) <;> simp [hf]
    · intro pls pn
      simp only [add_playlist_to_queue, h]
      cases hf : (pls (getPlaybackDevice d)).find?
          (fun p => p.title.toLower == pn.toLower) <;> simp [hf]
    · intro shuf; simp [get_shuffle, h]
    · intro b; simp [set_shuffle, h]
    · intro rep
      simp only [get_repeat, h]
      cases hr : rep (getPlaybackDevice d) <;> simp [hr]
    · intro m; simp [set_repeat, h]
    · intro cf; simp [get_crossfade, h]
    · intro b; simp [set_crossfade, h]
    · intro slp; simp [get_sleep_timer, h]
    · intro s; simp [set_sleep_timer, h]

/-- Witness for C1 at a concrete grouped member: `play` on the member
`devDen` targets handle 2, its group's coordinator. -/
theorem C1_witness :
    (play wCache denName).2 = some (getPlaybackDevice devDen) :=
  (C1_transport_routes_through_coordinator.2.2.2 wCache denName devDen
    (by decide)).1

/-- C9 — Implicit volume clamping: for every known speaker and every integer
input, `set_volume` forwards exactly the value clamped into the range 0–100
and reports success; an out-of-range input is never forwarded unclamped. -/
theorem C9_set_volume_clamps :
    ∀ (cache : List (String × Device)) (name : String) (d : Device)
      (v : Int), getSpeaker cache name = some d →
      set_volume cache name v = (true, some (max 0 (min 100 v)), some d.id)
      ∧ (0 : Int) ≤ max 0 (min 100 v)
      ∧ max 0 (min 100 v) ≤ 100
      ∧ (v < 0 → max 0 (min 100 v) = 0)
      ∧ (100 < v → max 0 (min 100 v) = 100)
      ∧ (0 ≤ v → v ≤ 100 → max 0 (min 100 v) = v) := by
  intro cache name d v h
  refine ⟨by simp [set_volume, h], ?_, ?_, ?_, ?_, ?_⟩ <;>
    simp only [max_def, min_def] <;> split_ifs <;> omega

/-- Witness for C9 at a concrete out-of-range input: volume -5 on a known
speaker is forwarded as the clamp of -5. -/
theorem C9_witness :
    set_volume wCache denName (-5) =
      (true, some (max 0 (min 100 (-5))), some devDen.id) :=
  (C9_set_volume_clamps wCache denName devDen (-5) (by decide)).1

/-- C3, counterexample: the registry lookup is not the only place an unknown
name is handled specially — `get_playlists` on a name absent from the cache
silently substitutes a different device (the first cached coordinator,
handle 2) instead of producing a not-found outcome. -/
theorem C3_counterexample :
    getSpeaker wCache ghostName = none
    ∧ (get_playlists plsW wCache (some ghostName)).2 = some devKitchen.id
    ∧ (get_playlists plsW wCache (some ghostName)).2 ≠ none := by
  refine ⟨by decide, by decide, by decide⟩

/-- C3, amended — for every name absent from the current snapshot,
`resolveCoordinator` fails with `none` (the spec's NotFound) and produces no
device handle, and no per-speaker control or transport operation substitutes
a different device for the unknown name (each performs no device call); the
system-wide library queries (`get_favorites`, `get_playlists`,
`get_playlist_tracks`, `get_radio_stations`) are exceptions: they fall back
to an arbitrary cached coordinator. -/
theorem C3_unknown_name_yields_no_handle :
    ∀ (cache : List (String × Device)) (name : String),
      getSpeaker cache name = none →
      resolveCoordinator cache name = none
      ∧ (play cache name).2 = none
      ∧ (pause cache name).2 = none
      ∧ (stop cache name).2 = none
      ∧ (next_track cache name).2 = none
      ∧ (previous_track cache name).2 = none
      ∧ (∀ pos : String, (seek cache name pos).2 = none)
      ∧ (∀ v : Int, (set_volume cache name v).2.2 = none)
      ∧ (∀ vol : Nat → Int, (get_volume vol cache name).2 = none)
      ∧ (∀ muteOf : Nat → Bool, (get_mute muteOf cache name).2 = none)
      ∧ (∀ b : Bool, (set_mute cache name b).2 = none)
      ∧ (∀ v : Int, (set_group_volume cache name v).2 = none)
      ∧ (∀ st8 : Nat → String, (get_playback_state st8 cache name).2 = none)
      ∧ (∀ trk : Nat → TrackInfo, (get_current_track trk cache name).2 = none)
      ∧ (∀ shuf : Nat → Bool, (get_shuffle shuf cache name).2 = none)
      ∧ (∀ b : Bool, (set_shuffle cache name b).2 = none)
      ∧ (∀ rep : Nat → RepeatRaw, (get_repeat rep cache name).2 = none)
      ∧ (∀ m : String, (set_repeat cache name m).2 = none)
      ∧ (∀ cf : Nat → Bool, (get_crossfade cf cache name).2 = none)
      ∧ (∀ b : Bool, (set_crossfade cache name b).2 = none)
      ∧ (∀ slp : Nat → Option Int, (get_sleep_timer slp cache name).2 = none)
      ∧ (∀ s : Option Int, (set_sleep_timer cache name s).2 = none)
      ∧ (∀ q : Nat → List String, (get_queue q cache name).2 = none)
      ∧ (∀ qs : Nat → Nat, (get_queue_length qs cache name).2 = none)
      ∧ (∀ qp : Nat → Nat, (get_queue_position qp cache name).2 = none)
      ∧ (∀ pos : Int, (play_from_queue cache name pos).2 = none)
      ∧ (clear_queue cache name).2 = none
      ∧ (∀ pos : Int, (remove_from_queue cache name pos).2 = none)
      ∧ (∀ uri : String, (add_uri_to_queue cache name uri).2 = none)
      ∧ (∀ (favs : Nat → List FavEntry) (fn : String),
          (add_favorite_to_queue favs cache name fn).2 = none)
      ∧ (∀ (pls : Nat → List PlaylistEntry) (pn : String),
          (add_playlist_to_queue pls cache name pn).2 = none)
      ∧ (∀ (favs : Nat → List FavEntry) (fn : String),
          (play_favorite favs cache name fn).2 = none)
      ∧ (∀ (favs : Nat → List FavEntry) (n : Int),
          (play_favorite_by_number favs cache name n).2 = none)
      ∧ (∀ (favs : Nat → List FavEntry) (sn : String),
          (play_radio_station favs cache name sn).2 = none)
      ∧ (∀ uri : String, (play_uri cache name uri).2 = none)
      ∧ (∀ other : String, (group_speakers cache other name).2 = none)
      ∧ (ungroup_speaker cache name).2 = none
      ∧ (party_mode cache name).2 = none
      ∧ (∀ zones : Nat → List Device,
          (ungroup_all zones cache name).2 = []) := by
  intro cache name h
  refine ⟨by simp [resolveCoordinator, h], by simp [play, h],
    by simp [pause, h], by simp [stop, h], by simp [next_track, h],
    by simp [previous_track, h], fun pos => by simp [seek, h],
    fun v => by simp [set_volume, h], fun vol => by simp [get_volume, h],
    fun muteOf => by simp [get_mute, h], fun b => by simp [set_mute, h],
    fun v => by simp [set_group_volume, h],
    fun st8 => by simp [get_playback_state, h],
    fun trk => by simp [get_current_track, h],
    fun shuf => by simp [get_shuffle, h], fun b => by simp [set_shuffle, h],
    fun rep => by simp [get_repeat, h], fun m => by simp [set_repeat, h],
    fun cf => by simp [get_crossfade, h],
    fun b => by simp [set_crossfade, h],
    fun slp => by simp [get_sleep_timer, h],
    fun s => by simp [set_sleep_timer, h], fun q => by simp [get_queue, h],
    fun qs => by simp [get_queue_length, h],
    fun qp => by simp [get_queue_position, h],
    fun pos => by simp [play_from_queue, h], by simp [clear_queue, h],
    fun pos => by simp [remove_from_queue, h],
    fun uri => by simp [add_uri_to_queue, h],
    fun favs fn => by simp [add_favorite_to_queue, h],
    fun pls pn => by simp [add_playlist_to_queue, h],
    fun favs fn => by simp [play_favorite, h],
    fun favs n => by simp [play_favorite_by_number, h],
    fun favs sn => by simp [play_radio_station, h],
    fun uri => by simp [play_uri, h], ?_,
    by simp [ungroup_speaker, h], by simp [party_mode, h],
    fun zones => by simp [ungroup_all, h]⟩
  intro other
  unfold group_speakers
  cases ho : getSpeaker cache other <;> simp [h]

/-- Witness for C3 at a concrete absent name: resolving the ghost name over
the fixture cache yields no handle. -/
theorem C3_witness : resolveCoordinator wCache ghostName = none :=
  (C3_unknown_name_yields_no_handle wCache ghostName (by decide)).1

/-- C10, counterexample: `get_favorites` on a name absent from the snapshot
does not return the empty-list failure default without contacting a device —
it contacts the fallback coordinator (handle 2) and returns its favorites. -/
theorem C10_counterexample :
    getSpeaker wCache ghostName = none
    ∧ get_favorites favsW wCache ghostName = ([(0, "Jazz")], some 2)
    ∧ (get_favorites favsW wCache ghostName).1 ≠ []
    ∧ (get_favorites favsW wCache ghostName).2 ≠ none := by
  refine ⟨by decide, by decide, by decide, by decide⟩

/-- C10, amended — for every control or query operation other than
discovery, `get_speaker_info`, and the system-wide library queries
(`get_favorites`, `get_playlists`, `get_playlist_tracks`,
`get_radio_stations`, which fall back to an arbitrary cached coordinator),
an absent speaker name yields the operation's failure default — false for
boolean commands, none for value queries, 0 for queue length and position,
the empty list for list queries, UNKNOWN for the playback state — without
contacting any device. -/
theorem C10_absent_name_defaults :
    ∀ (cache : List (String × Device)) (name : String),
      getSpeaker cache name = none →
      play cache name = (false, none)
      ∧ pause cache name = (false, none)
      ∧ stop cache name = (false, none)
      ∧ next_track cache name = (false, none)
      ∧ previous_track cache name = (false, none)
      ∧ (∀ pos : String, seek cache name pos = (false, none))
      ∧ (∀ v : Int, set_volume cache name v = (false, none, none))
      ∧ (∀ vol : Nat → Int, get_volume vol cache name = (none, none))
      ∧ (∀ muteOf : Nat → Bool, get_mute muteOf cache name = (none, none))
      ∧ (∀ b : Bool, set_mute cache name b = (false, none))
      ∧ (∀ v : Int, set_group_volume cache name v = (false, none))
      ∧ (∀ st8 : Nat → String,
          get_playback_state st8 cache name = ("UNKNOWN", none))
      ∧ (∀ trk : Nat → TrackInfo,
          get_current_track trk cache name = (none, none))
      ∧ (∀ shuf : Nat → Bool, get_shuffle shuf cache name = (none, none))
      ∧ (∀ b : Bool, set_shuffle cache name b = (false, none))
      ∧ (∀ rep : Nat → RepeatRaw, get_repeat rep cache name = (none, none))
      ∧ (∀ m : String, set_repeat cache name m = (false, none))
      ∧ (∀ cf : Nat → Bool, get_crossfade cf cache name = (none, none))
      ∧ (∀ b : Bool, set_crossfade cache name b = (false, none))
      ∧ (∀ slp : Nat → Option Int,
          get_sleep_timer slp cache name = (none, none))
      ∧ (∀ s : Option Int, set_sleep_timer cache name s = (false, none))
      ∧ (∀ q : Nat → List String, get_queue q cache name = ([], none))
      ∧ (∀ qs : Nat → Nat, get_queue_length qs cache name = (0, none))
      ∧ (∀ qp : Nat → Nat, get_queue_position qp cache name = (0, none))
      ∧ (∀ pos : Int, play_from_queue cache name pos = (false, none))
      ∧ clear_queue cache name = (false, none)
      ∧ (∀ pos : Int, remove_from_queue cache name pos = (false, none))
      ∧ (∀ uri : String, add_uri_to_queue cache name uri = (false, none))
      ∧ (∀ (favs : Nat → List FavEntry) (fn : String),
          add_favorite_to_queue favs cache name fn = (none, none))
      ∧ (∀ (pls : Nat → List PlaylistEntry) (pn : String),
          add_playlist_to_queue pls cache name pn = (none, none))
      ∧ (∀ (favs : Nat → List FavEntry) (fn : String),
          play_favorite favs cache name fn = (false, none))
      ∧ (∀ (favs : Nat → List FavEntry) (n : Int),
          play_favorite_by_number favs cache name n = (false, none))
      ∧ (∀ (favs : Nat → List FavEntry) (sn : String),
          play_radio_station favs cache name sn = (false, none))
      ∧ (∀ uri : String, play_uri cache name uri = (false, none))
      ∧ (∀ other : String, group_speakers cache other name = (false, none))
      ∧ (∀ other : String, group_speakers cache name other = (false, none))
      ∧ ungroup_speaker cache name = (false, none)
      ∧ party_mode cache name = (false, none)
      ∧ (∀ zones : Nat → List Device,
          ungroup_all zones cache name = (false, [])) := by
  intro cache name h
  refine ⟨by simp [play, h], by simp [pause, h], by simp [stop, h],
    by simp [next_track, h], by simp [previous_track, h],
    fun pos => by simp [seek, h], fun v => by simp [set_volume, h],
    fun vol => by simp [get_volume, h],
    fun muteOf => by simp [get_mute, h], fun b => by simp [set_mute, h],
    fun v => by simp [set_group_volume, h],
    fun st8 => by simp [get_playback_state, h],
    fun trk => by simp [get_current_track, h],
    fun shuf => by simp [get_shuffle, h], fun b => by simp [set_shuffle, h],
    fun rep => by simp [get_repeat, h], fun m => by simp [set_repeat, h],
    fun cf => by simp [get_crossfade, h],
    fun b => by simp [set_crossfade, h],
    fun slp => by simp [get_sleep_timer, h],
    fun s => by simp [set_sleep_timer, h], fun q => by simp [get_queue, h],
    fun qs => by simp [get_queue_length, h],
    fun qp => by simp [get_queue_position, h],
    fun pos => by simp [play_from_queue, h], by simp [clear_queue, h],
    fun pos => by simp [remove_from_queue, h],
    fun uri => by simp [add_uri_to_queue, h],
    fun favs fn => by simp [add_favorite_to_queue, h],
    fun pls pn => by simp [add_playlist_to_queue, h],
    fun favs fn => by simp [play_favorite, h],
    fun favs n => by simp [play_favorite_by_number, h],
    fun favs sn => by simp [play_radio_station, h],
    fun uri => by simp [play_uri, h], ?_,
    fun other => by simp [group_speakers, h],
    by simp [ungroup_speaker, h], by simp [party_mode, h],
    fun zones => by simp [ungroup_all, h]⟩
  intro other
  unfold group_speakers
  cases ho : getSpeaker cache other <;> simp [h]

/-- Witness for C10 at a concrete absent name: `play` on the ghost name
returns the boolean failure default with no device contacted. -/
theorem C10_witness : play wCache ghostName = (false, none) :=
  (C10_absent_name_defaults wCache ghostName (by decide)).1

/-- C4 — Cache freshness: with `force` false, a non-empty prior snapshot,
and an age below the 300-second window, `discover_speakers` returns the
cached name list unchanged, for every possible network outcome (so without
performing any network discovery); once the age exceeds 300 seconds it
performs a fresh discovery. -/
theorem C4_cache_freshness :
    (∀ (st : SpeakerState) (t now : Int) (m : Except Unit (List Device))
        (net : ProbeNet),
        st.speakers_cache ≠ [] → st.last_discovery = some t →
        now - t < 300 →
        discover_speakers st false now m net =
          (st, cacheKeys st.speakers_cache, false))
    ∧ (∀ (st : SpeakerState) (t now : Int) (m : Except Unit (List Device))
        (net : ProbeNet),
        st.last_discovery = some t → 300 < now - t →
        (discover_speakers st false now m net).2.2 = true) := by
  constructor
  · intro st t now m net hne hld hage
    have h1 : st.speakers_cache.isEmpty = false := by
      cases hsc : st.speakers_cache with
      | nil => exact absurd hsc hne
      | cons a l => rfl
    have hfresh : cacheFresh st false now = true := by
      unfold cacheFresh
      rw [hld, h1]
      simp [hage]
    simp [discover_speakers, hfresh]
  · intro st t now m net hld hage
    have hdec : decide ((now - t : Int) < 300) = false := by
      simp only [decide_eq_false_iff_not]
      omega
    have hfresh : cacheFresh st false now = false := by
      simp [cacheFresh, hld, hdec]
    rcases m with e | speakers
    · simp [discover_speakers, hfresh]
    · by_cases hsp : speakers.isEmpty = true
      · by_cases hscan : (discoverByIpScan net ipScanSubnet).isEmpty = true
        · simp [discover_speakers, hfresh, hsp, hscan]
        · rw [Bool.not_eq_true] at hscan
          simp [discover_speakers, hfresh, hsp, hscan]
      · rw [Bool.not_eq_true] at hsp
        simp [discover_speakers, hfresh, hsp]

/-- Witness for C4 at a concrete fresh state: a snapshot captured at 0
queried at time 100 is served from the cache with no discovery. -/
theorem C4_witness :
    discover_speakers st0 false 100 (Except.ok []) net0 =
      (st0, cacheKeys st0.speakers_cache, false) :=
  C4_cache_freshness.1 st0 0 100 (Except.ok []) net0 (by decide) (by decide)
    (by decide)

/-- C2, counterexample: with a prior non-empty snapshot and both discovery
paths returning zero devices, `discover_speakers` returns the empty list,
not the prior snapshot's names, so the claim's "returns the prior snapshot's
name list unchanged" fails at this input. -/
theorem C2_counterexample :
    cacheKeys st0.speakers_cache = [kitchenName]
    ∧ (discover_speakers st0 true 400 (Except.ok []) net0).2.1 = []
    ∧ (discover_speakers st0 true 400 (Except.ok []) net0).2.1 ≠
        cacheKeys st0.speakers_cache := by
  refine ⟨by decide, by decide, by decide⟩

/-- C2, amended — when a forced-or-stale discovery finds that both the
multicast path and the IP-scan path return zero devices, the cached snapshot
is not overwritten and `_last_discovery` is not updated, but the returned
name list is empty rather than the prior snapshot's names; the prior names
are returned only when the discovery call raises. -/
theorem C2_total_failure_preserves_state :
    (∀ (st : SpeakerState) (force : Bool) (now : Int) (net : ProbeNet),
        cacheFresh st force now = false →
        discoverByIpScan net ipScanSubnet = [] →
        discover_speakers st force now (Except.ok []) net = (st, [], true))
    ∧ (∀ (st : SpeakerState) (force : Bool) (now : Int) (net : ProbeNet),
        cacheFresh st force now = false →
        discover_speakers st force now (Except.error ()) net =
          (st, cacheKeys st.speakers_cache, true)) := by
  constructor
  · intro st force now net hfresh hscan
    simp [discover_speakers, hfresh, hscan]
  · intro st force now net hfresh
    simp [discover_speakers, hfresh]

/-- Witness for C2 at a concrete state: forced discovery over a dead network
leaves the prior snapshot and its timestamp in place and returns the empty
list. -/
theorem C2_witness :
    discover_speakers st0 true 400 (Except.ok []) net0 = (st0, [], true) :=
  C2_total_failure_preserves_state.1 st0 true 400 net0 (by decide) (by decide)

/-- A successful status probe reports the address it was given. -/
theorem scanIpForSonos_eq_ip {net : ProbeNet} {ip a b : String}
    (h : scanIpForSonos net ip = some (a, b)) : a = ip := by
  unfold scanIpForSonos at h
  split at h
  · exact absurd h (by simp)
  · split at h
    · split at h
      · simp only [Option.some.injEq, Prod.mk.injEq] at h
        exact h.1.symm
      · exact absurd h (by simp)
    · exact absurd h (by simp)

/-- An entry produced by one scan iteration is carried over or is a device
confirmed at that iteration's address: control connection succeeded, the
device is visible, and the key is its canonical `player_name`. -/
theorem scanStep_mem {net : ProbeNet} {acc : List (String × Device)}
    {ip : String} {p : String × Device} (hp : p ∈ scanStep net acc ip) :
    p ∈ acc ∨ (net.control ip = some p.2 ∧ p.2.is_visible = true ∧
      p.1 = p.2.player_name) := by
  unfold scanStep at hp
  split at hp
  · exact Or.inl hp
  · rename_i ip2 nm heq
    have hip : ip2 = ip := scanIpForSonos_eq_ip heq
    subst hip
    split at hp
    · exact Or.inl hp
    · rename_i device heqc
      split at hp
      · exact Or.inl hp
      · rename_i hvis
        split at hp
        · rcases mem_dictInsert hp with h1 | h2
          · exact Or.inl h1
          · right
            rw [h2]
            exact ⟨heqc, by simpa using hvis, rfl⟩
        · exact Or.inl hp

/-- Every entry of the scan's accumulated result over a list of addresses is
carried over from the accumulator or confirmed at one of the addresses. -/
theorem scan_foldl_mem {net : ProbeNet} :
    ∀ (ips : List String) (acc : List (String × Device))
      (p : String × Device), p ∈ ips.foldl (scanStep net) acc →
      p ∈ acc ∨ ∃ ip ∈ ips, net.control ip = some p.2 ∧
        p.2.is_visible = true ∧ p.1 = p.2.player_name := by
  intro ips
  induction ips with
  | nil => intro acc p hp; exact Or.inl hp
  | cons i is ih =>
    intro acc p hp
    rw [List.foldl_cons] at hp
    rcases ih (scanStep net acc i) p hp with h1 | ⟨ip, hip, hcc⟩
    · rcases scanStep_mem h1 with h2 | h3
      · exact Or.inl h2
      · exact Or.inr ⟨i, List.mem_cons_self _ _, h3⟩
    · exact Or.inr ⟨ip, List.mem_cons_of_mem _ hip, hcc⟩

/-- C5 — Fallback on empty primary: the scan probes exactly the 254 host
addresses of the configured /24 subnet with a pool bounded at 50 workers;
an address whose status body lacks the marker string is not identified as a
Sonos device; every entry of the scan result was confirmed via a control
connection at one of the probed addresses, is visible, and is keyed by its
canonical name (an address failing to confirm contributes nothing); and when
the multicast path returns zero devices and the scan finds N > 0 devices,
`discover_speakers` returns exactly those N names and stamps the snapshot's
timestamp. -/
theorem C5_scan_fallback :
    (∀ subnet : String, (ipsToScan subnet).length = 254)
    ∧ (∀ (subnet ip : String), ip ∈ ipsToScan subnet →
        ∃ i : Nat, 1 ≤ i ∧ i ≤ 254 ∧ ip = subnet ++ "." ++ toString i)
    ∧ scanMaxWorkers = 50
    ∧ (∀ (net : ProbeNet) (ip body : String), net.body ip = some body →
        containsSub body.data zpMarker.data = false →
        scanIpForSonos net ip = none)
    ∧ (∀ (net : ProbeNet) (subnet : String) (p : String × Device),
        p ∈ discoverByIpScan net subnet →
        ∃ ip ∈ ipsToScan subnet, net.control ip = some p.2 ∧
          p.2.is_visible = true ∧ p.1 = p.2.player_name)
    ∧ (∀ (st : SpeakerState) (force : Bool) (now : Int) (net : ProbeNet),
        cacheFresh st force now = false →
        discoverByIpScan net ipScanSubnet ≠ [] →
        discover_speakers st force now (Except.ok []) net =
          (⟨discoverByIpScan net ipScanSubnet, some now⟩,
           cacheKeys (discoverByIpScan net ipScanSubnet), true)
        ∧ (cacheKeys (discoverByIpScan net ipScanSubnet)).length =
            (discoverByIpScan net ipScanSubnet).length) := by
  refine ⟨?_, ?_, rfl, ?_, ?_, ?_⟩
  · intro subnet
    simp [ipsToScan]
  · intro subnet ip hip
    rcases List.mem_map.1 hip with ⟨j, hj, rfl⟩
    have hj2 : j < 254 := List.mem_range.1 hj
    exact ⟨j + 1, by omega, by omega, rfl⟩
  · intro net ip body hb hm
    unfold scanIpForSonos
    rw [hb]
    simp [hm]
  · intro net subnet p hp
    unfold discoverByIpScan at hp
    rcases scan_foldl_mem (ipsToScan subnet) [] p hp with h1 | h2
    · exact absurd h1 (List.not_mem_nil p)
    · exact h2
  · intro st force now net hfresh hne
    have hie : (discoverByIpScan net ipScanSubnet).isEmpty = false := by
      cases hd : discoverByIpScan net ipScanSubnet with
      | nil => exact absurd hd hne
      | cons a l => rfl
    constructor
    · simp [discover_speakers, hfresh, hie]
    · simp [cacheKeys]

/-- Witness for C5 at a concrete network on which one address confirms: the
scan result replaces the snapshot, its keys are returned, and the timestamp
is stamped. -/
theorem C5_witness :
    discover_speakers st0 true 400 (Except.ok []) net5 =
      (⟨discoverByIpScan net5 ipScanSubnet, some 400⟩,
       cacheKeys (discoverByIpScan net5 ipScanSubnet), true) :=
  (C5_scan_fallback.2.2.2.2.2 st0 true 400 net5 (by decide) (by decide)).1

/-- A name in a zone's member list differs from the zone's own name and
comes from a visible member of the zone's group. -/
theorem zoneMembers_spec {z : Device} {x : String} (hx : x ∈ zoneMembers z) :
    x ≠ z.player_name ∧ ∃ gi : GroupInfo, z.group = some gi ∧
      ∃ m ∈ gi.members, m.is_visible = true ∧ m.player_name = x := by
  unfold zoneMembers at hx
  split at hx
  · rename_i gi hg
    rcases List.mem_map.1 hx with ⟨m, hm, rfl⟩
    rcases List.mem_filter.1 hm with ⟨hmem, hcond⟩
    rw [Bool.and_eq_true] at hcond
    have h1 : m.player_name ≠ z.player_name := by
      have := hcond.1
      simpa using this
    exact ⟨h1, gi, hg, m, hmem, hcond.2, rfl⟩
  · exact absurd hx (List.not_mem_nil x)

/-- Every entry of the group fold comes from the accumulator or from a
visible coordinator zone in the processed list, carrying that zone's name
and member list. -/
theorem groups_fold_entry :
    ∀ (zones : List Device) (acc : List GroupEntry × List String)
      (g : GroupEntry), g ∈ (zones.foldl groupStep acc).1 →
      g ∈ acc.1 ∨ ∃ z ∈ zones, z.is_coordinator = true ∧
        z.is_visible = true ∧
        g = { coordinator := z.player_name, members := zoneMembers z } := by
  intro zones
  induction zones with
  | nil => intro acc g hg; exact Or.inl hg
  | cons z zs ih =>
    intro acc g hg
    rw [List.foldl_cons] at hg
    rcases ih (groupStep acc z) g hg with h1 | ⟨z2, hz2, hh⟩
    · unfold groupStep at h1
      by_cases hc : (z.is_coordinator && z.is_visible) = true
      · rw [if_pos hc] at h1
        by_cases hseen : (acc.2.contains z.player_name) = true
        · rw [if_pos hseen] at h1
          exact Or.inl h1
        · rw [if_neg hseen] at h1
          rcases List.mem_append.1 h1 with ha | hb
          · exact Or.inl ha
          · right
            have hc2 := hc
            rw [Bool.and_eq_true] at hc2
            refine ⟨z, List.mem_cons_self _ _, hc2.1, hc2.2, ?_⟩
            simpa using hb
      · rw [if_neg hc] at h1
        exact Or.inl h1
    · exact Or.inr ⟨z2, List.mem_cons_of_mem _ hz2, hh⟩

/-- The group fold preserves the invariant that the coordinator names built
so far are distinct and all recorded in the seen set. -/
theorem groups_fold_nodup :
    ∀ (zones : List Device) (acc : List GroupEntry × List String),
      (acc.1.map (fun g => g.coordinator)).Nodup →
      (∀ n ∈ acc.1.map (fun g => g.coordinator), n ∈ acc.2) →
      ((zones.foldl groupStep acc).1.map (fun g => g.coordinator)).Nodup
      ∧ ∀ n ∈ (zones.foldl groupStep acc).1.map (fun g => g.coordinator),
          n ∈ (zones.foldl groupStep acc).2 := by
  intro zones
  induction zones with
  | nil => intro acc h1 h2; exact ⟨h1, h2⟩
  | cons z zs ih =>
    intro acc h1 h2
    rw [List.foldl_cons]
    unfold groupStep
    by_cases hc : (z.is_coordinator && z.is_visible) = true
    · rw [if_pos hc]
      by_cases hseen : (acc.2.contains z.player_name) = true
      · rw [if_pos hseen]
        exact ih acc h1 h2
      · rw [if_neg hseen]
        apply ih
        · rw [List.map_append]
          refine List.Nodup.append h1 (by simp) ?_
          intro a ha hb
          simp only [List.map_cons, List.map_nil, List.mem_singleton] at hb
          subst hb
          exact hseen (List.elem_eq_true_of_mem (h2 _ ha))
        · intro n hn
          rw [List.map_append] at hn
          rcases List.mem_append.1 hn with ha | hb
          · exact List.mem_cons_of_mem _ (h2 n ha)
          · simp only [List.map_cons, List.map_nil,
              List.mem_singleton] at hb
            subst hb
            exact List.mem_cons_self _ _
    · rw [if_neg hc]
      exact ih acc h1 h2

/-- C6 — Group de-duplication: for every zone topology, `_get_groups_sync`
returns no two entries with the same coordinator name, and each entry's
member list excludes the coordinator's own name. -/
theorem C6_group_dedup :
    ∀ zones : List Device,
      ((getGroupsSync zones).map (fun g => g.coordinator)).Nodup
      ∧ ∀ g ∈ getGroupsSync zones, g.coordinator ∉ g.members := by
  intro zones
  constructor
  · exact (groups_fold_nodup zones ([], []) (by simp) (by simp)).1
  · intro g hg hmem
    unfold getGroupsSync at hg
    rcases groups_fold_entry zones ([], []) g hg with h1 | ⟨z, _, _, _, rfl⟩
    · exact absurd h1 (List.not_mem_nil g)
    · exact (zoneMembers_spec hmem).1 rfl

/-- Witness for C6 at a concrete topology that enumerates the same
coordinator twice: the result's coordinator names are distinct and the
single entry does not list its coordinator among its members. -/
theorem C6_witness :
    ((getGroupsSync zonesW).map (fun g => g.coordinator)).Nodup
    ∧ ({ coordinator := kitchenName, members := [denName] } :
        GroupEntry).coordinator ∉
      ({ coordinator := kitchenName, members := [denName] } :
        GroupEntry).members :=
  ⟨(C6_group_dedup zonesW).1,
   (C6_group_dedup zonesW).2
     { coordinator := kitchenName, members := [denName] } (by decide)⟩

/-- An entry produced by one multicast-comprehension step is carried over or
is a visible speaker keyed by its own name. -/
theorem multicastStep_mem {m : List (String × Device)} {s : Device}
    {p : String × Device} (hp : p ∈ multicastStep m s) :
    p ∈ m ∨ (p = (s.player_name, s) ∧ s.is_visible = true) := by
  unfold multicastStep at hp
  by_cases hc : (s.player_name != "" && s.is_visible) = true
  · rw [if_pos hc] at hp
    rcases mem_dictInsert hp with h1 | h2
    · exact Or.inl h1
    · right
      rw [Bool.and_eq_true] at hc
      exact ⟨h2, hc.2⟩
  · rw [if_neg hc] at hp
    exact Or.inl hp

/-- Every entry of the multicast comprehension over a speaker list is
carried over from the accumulator or is a visible speaker keyed by its own
name. -/
theorem build_foldl_mem :
    ∀ (speakers : List Device) (acc : List (String × Device))
      (p : String × Device), p ∈ speakers.foldl multicastStep acc →
      p ∈ acc ∨ (p.2.is_visible = true ∧ p.1 = p.2.player_name) := by
  intro speakers
  induction speakers with
  | nil => intro acc p hp; exact Or.inl hp
  | cons s ss ih =>
    intro acc p hp
    rw [List.foldl_cons] at hp
    rcases ih (multicastStep acc s) p hp with h1 | h2
    · rcases multicastStep_mem h1 with h3 | ⟨h4, h5⟩
      · exact Or.inl h3
      · right
        rw [h4]
        exact ⟨h5, rfl⟩
    · exact Or.inr h2

/-- Every entry of the IP-scan result is a visible device keyed by its own
canonical name. -/
theorem scan_mem_spec {net : ProbeNet} {subnet : String}
    {p : String × Device} (hp : p ∈ discoverByIpScan net subnet) :
    p.2.is_visible = true ∧ p.1 = p.2.player_name := by
  unfold discoverByIpScan at hp
  rcases scan_foldl_mem (ipsToScan subnet) [] p hp with h | ⟨_, _, _, h2, h3⟩
  · exact absurd h (List.not_mem_nil p)
  · exact ⟨h2, h3⟩

/-- When every cache entry is a visible device keyed by its own name, every
returned key is the name of a visible cached device. -/
theorem cacheKeys_exists {c : List (String × Device)}
    (hc : ∀ p ∈ c, p.2.is_visible = true ∧ p.1 = p.2.player_name) :
    ∀ n ∈ cacheKeys c, ∃ d : Device, (n, d) ∈ c ∧ d.is_visible = true ∧
      d.player_name = n := by
  intro n hn
  rcases List.mem_map.1 hn with ⟨p, hp, rfl⟩
  refine ⟨p.2, ?_, (hc p hp).1, ((hc p hp).2).symm⟩
  simpa using hp

/-- C7 — Visibility invariant: no non-visible device enters the snapshot on
either discovery path, every name returned by `discover_speakers` belongs to
a visible cached device (assuming the prior snapshot obeyed the invariant),
and every group entry's coordinator and member names come from visible zones
and visible group members. -/
theorem C7_visibility_invariant :
    (∀ (speakers : List Device) (p : String × Device),
        p ∈ buildCache speakers →
        p.2.is_visible = true ∧ p.1 = p.2.player_name)
    ∧ (∀ (net : ProbeNet) (subnet : String) (p : String × Device),
        p ∈ discoverByIpScan net subnet →
        p.2.is_visible = true ∧ p.1 = p.2.player_name)
    ∧ (∀ (st : SpeakerState) (force : Bool) (now : Int)
        (m : Except Unit (List Device)) (net : ProbeNet),
        (∀ p ∈ st.speakers_cache,
          p.2.is_visible = true ∧ p.1 = p.2.player_name) →
        (∀ p ∈ (discover_speakers st force now m net).1.speakers_cache,
          p.2.is_visible = true ∧ p.1 = p.2.player_name)
        ∧ ∀ n ∈ (discover_speakers st force now m net).2.1,
            ∃ d : Device,
              (n, d) ∈ (discover_speakers st force now m net).1.speakers_cache
              ∧ d.is_visible = true ∧ d.player_name = n)
    ∧ (∀ zones : List Device, ∀ g ∈ getGroupsSync zones,
        (∃ z ∈ zones, z.is_visible = true ∧ z.is_coordinator = true ∧
          z.player_name = g.coordinator)
        ∧ ∀ x ∈ g.members, ∃ z ∈ zones, ∃ gi : GroupInfo,
            z.group = some gi ∧ ∃ m2 ∈ gi.members,
              m2.is_visible = true ∧ m2.player_name = x) := by
  have hbuild : ∀ (speakers : List Device) (p : String × Device),
      p ∈ buildCache speakers →
      p.2.is_visible = true ∧ p.1 = p.2.player_name := by
    intro speakers p hp
    unfold buildCache at hp
    rcases build_foldl_mem speakers [] p hp with h | h
    · exact absurd h (List.not_mem_nil p)
    · exact h
  refine ⟨hbuild, fun net subnet p hp => scan_mem_spec hp, ?_, ?_⟩
  · intro st force now m net hpre
    by_cases hfresh : cacheFresh st force now = true
    · have heq : discover_speakers st force now m net =
          (st, cacheKeys st.speakers_cache, false) := by
        simp [discover_speakers, hfresh]
      rw [heq]
      exact ⟨hpre, cacheKeys_exists hpre⟩
    · rw [Bool.not_eq_true] at hfresh
      rcases m with e | speakers
      · have heq : discover_speakers st force now (Except.error e) net =
            (st, cacheKeys st.speakers_cache, true) := by
          simp [discover_speakers, hfresh]
        rw [heq]
        exact ⟨hpre, cacheKeys_exists hpre⟩
      · by_cases hsp : speakers.isEmpty = true
        · by_cases hscan :
              (discoverByIpScan net ipScanSubnet).isEmpty = true
          · have heq :
                discover_speakers st force now (Except.ok speakers) net =
                  (st, [], true) := by
              simp [discover_speakers, hfresh, hsp, hscan]
            rw [heq]
            exact ⟨hpre, fun n hn => absurd hn (List.not_mem_nil n)⟩
          · rw [Bool.not_eq_true] at hscan
            have heq :
                discover_speakers st force now (Except.ok speakers) net =
                  (⟨discoverByIpScan net ipScanSubnet, some now⟩,
                   cacheKeys (discoverByIpScan net ipScanSubnet), true) := by
              simp [discover_speakers, hfresh, hsp, hscan]
            rw [heq]
            have hall : ∀ p ∈ discoverByIpScan net ipScanSubnet,
                p.2.is_visible = true ∧ p.1 = p.2.player_name :=
              fun p hp => scan_mem_spec hp
            exact ⟨hall, cacheKeys_exists hall⟩
        · rw [Bool.not_eq_true] at hsp
          have heq :
              discover_speakers st force now (Except.ok speakers) net =
                (⟨buildCache speakers, some now⟩,
                 cacheKeys (buildCache speakers), true) := by
            simp [discover_speakers, hfresh, hsp]
          rw [heq]
          have hall : ∀ p ∈ buildCache speakers,
              p.2.is_visible = true ∧ p.1 = p.2.player_name :=
            fun p hp => hbuild speakers p hp
          exact ⟨hall, cacheKeys_exists hall⟩
  · intro zones g hg
    unfold getGroupsSync at hg
    rcases groups_fold_entry zones ([], []) g hg with h1 | ⟨z, hz, hzc, hzv, rfl⟩
    · exact absurd h1 (List.not_mem_nil g)
    · constructor
      · exact ⟨z, hz, hzv, hzc, rfl⟩
      · intro x hx
        rcases zoneMembers_spec hx with ⟨-, gi, hgi, m2, hm2, hv, hn⟩
        exact ⟨z, hz, gi, hgi, m2, hm2, hv, hn⟩

/-- Witness for C7 at a concrete multicast result containing a non-visible
device: the surviving cache entry is visible and keyed by its own name. -/
theorem C7_witness :
    ((kitchenName, devKitchen) : String × Device).2.is_visible = true
    ∧ ((kitchenName, devKitchen) : String × Device).1 =
        ((kitchenName, devKitchen) : String × Device).2.player_name :=
  C7_visibility_invariant.1 [devHidden, devKitchen]
    (kitchenName, devKitchen) (by decide)
